import Mathlib

/-!
# Verification of the bike-companion binary telemetry/control codec

Shallow embedding of the codec and capability-negotiation layer of the
`bike-companion` repository, together with theorems settling the frozen
claims about its specification.

Conventions of the embedding:
* A binary notification frame (a JS `DataView` over a `Uint8Array`) is a
  `List Nat`, one entry per byte; concrete frames always use values `< 256`.
* A `DataView` accessor (`getUint8`, `getUint16`, `getInt16`, `getUint32`)
  throws a `RangeError` when the requested bytes are out of bounds.  The
  embedded accessors return `Option`, with `none` standing for the thrown
  exception; a surrounding JS `try`/`catch` becomes an explicit match on the
  `Option` (or `Option.getD`).
* JS floating-point scaling constants (`0.01`, `0.5`, `0.1`) are modelled as
  exact rationals.  At every concrete input evaluated in this file the IEEE
  double result coincides with the exact rational result (e.g. `2500 * 0.01`
  rounds to exactly `25.0` in binary64).
-/

namespace BikeCompanion

/-! ## Byte-buffer primitives (JS `DataView` accessors, little-endian) -/

/-- `DataView.getUint8(i)`: the byte at index `i`, `none` if out of bounds. -/
def getUint8 (bytes : List Nat) (i : Nat) : Option Nat :=
  bytes[i]?

/-- `DataView.getUint16(i, true)`: unsigned 16-bit little-endian read. -/
def getUint16LE (bytes : List Nat) (i : Nat) : Option Nat := do
  let b0 ← bytes[i]?
  let b1 ← bytes[i + 1]?
  pure (b0 + 256 * b1)

/-- `DataView.getInt16(i, true)`: signed 16-bit little-endian read
(two's complement). -/
def getInt16LE (bytes : List Nat) (i : Nat) : Option Int :=
  (getUint16LE bytes i).map fun raw =>
    if raw < 32768 then (raw : Int) else (raw : Int) - 65536

/-- `DataView.getUint32(i, true)`: unsigned 32-bit little-endian read. -/
def getUint32LE (bytes : List Nat) (i : Nat) : Option Nat := do
  let b0 ← bytes[i]?
  let b1 ← bytes[i + 1]?
  let b2 ← bytes[i + 2]?
  let b3 ← bytes[i + 3]?
  pure (b0 + 256 * b1 + 65536 * b2 + 16777216 * b3)

/-! ## Dialect A decoder: `handleBikeData` of `app/monitor/page.tsx`

The monitor page's `handleBikeData` reads the 16-bit flags word and then
walks the flag bits 0..6 in order, advancing a single `offset` cursor.
In the embedding the successive values of that cursor are named
`o0`..`o6`: `o0 = 2` is the cursor when the bit-0 (instantaneous speed)
field would be read, `o1` the cursor after the bit-0 field, ... and `o6`
the cursor when the bit-6 (instantaneous power) field would be read,
exactly as produced by the source's `offset += 2` / `offset += 3` updates.
The decoded record is the JS object `{speed, cadence, power}` handed to
`setMetrics`, embedded as an association list so that the *absence* of a
key can be stated. -/

/-- Cursor after the bit-0 (instantaneous speed) field: `offset` starts at 2
and the source runs `offset += 2` inside `if (flags & 0x0001)`. -/
def cursorA1 (flags : Nat) : Nat :=
  if flags &&& 0x0001 ≠ 0 then 2 + 2 else 2

/-- Cursor after the bit-1 (average speed) skip (`offset += 2`). -/
def cursorA2 (flags : Nat) : Nat :=
  if flags &&& 0x0002 ≠ 0 then cursorA1 flags + 2 else cursorA1 flags

/-- Cursor after the bit-2 (instantaneous cadence) field (`offset += 2`). -/
def cursorA3 (flags : Nat) : Nat :=
  if flags &&& 0x0004 ≠ 0 then cursorA2 flags + 2 else cursorA2 flags

/-- Cursor after the bit-3 (average cadence) skip (`offset += 2`). -/
def cursorA4 (flags : Nat) : Nat :=
  if flags &&& 0x0008 ≠ 0 then cursorA3 flags + 2 else cursorA3 flags

/-- Cursor after the bit-4 (24-bit total distance) skip (`offset += 3`). -/
def cursorA5 (flags : Nat) : Nat :=
  if flags &&& 0x0010 ≠ 0 then cursorA4 flags + 3 else cursorA4 flags

/-- Cursor after the bit-5 (resistance level) skip (`offset += 2`):
this is the offset at which the bit-6 instantaneous power is read. -/
def cursorA6 (flags : Nat) : Nat :=
  if flags &&& 0x0020 ≠ 0 then cursorA5 flags + 2 else cursorA5 flags

def handleBikeDataA (bytes : List Nat) : Option (List (String × ℚ)) :=
  (getUint16LE bytes 0).bind fun flags =>
  (if flags &&& 0x0001 ≠ 0 then
      (getUint16LE bytes 2).map (fun (raw : Nat) => (raw : ℚ) * 0.01)
    else pure 0).bind fun speed =>
  (if flags &&& 0x0004 ≠ 0 then
      (getUint16LE bytes (cursorA2 flags)).map (fun (raw : Nat) => (raw : ℚ) * 0.5)
    else pure 0).bind fun cadence =>
  (if flags &&& 0x0040 ≠ 0 then
      (getInt16LE bytes (cursorA6 flags)).map (fun (raw : Int) => (raw : ℚ))
    else pure 0).bind fun power =>
  pure [("speed", speed), ("cadence", cadence), ("power", power)]

/-- The dead-reckoned byte offset at which the bit-6 (instantaneous power)
field of a Dialect A frame starts, following the spec's words: two bytes
of flags, then 2 bytes for each of the 16-bit fields of bits 0,1,2,3,5 and
3 bytes for the 24-bit total distance of bit 4, for every bit that is set. -/
def specPowerOffsetA (flags : Nat) : Nat :=
  2 + (if flags &&& 0x0001 ≠ 0 then 2 else 0)
    + (if flags &&& 0x0002 ≠ 0 then 2 else 0)
    + (if flags &&& 0x0004 ≠ 0 then 2 else 0)
    + (if flags &&& 0x0008 ≠ 0 then 2 else 0)
    + (if flags &&& 0x0010 ≠ 0 then 3 else 0)
    + (if flags &&& 0x0020 ≠ 0 then 2 else 0)

/-! ## Dialect A decoder: `handleBikeData` of the training page (part_005)

This variant only tests bits 0, 2 and 6 and advances the cursor only for
those fields; it never skips the average-speed, average-cadence, total
distance or resistance fields.  Fields keep the previous metric values
when their bit is clear (`let speed = metrics.speed; ...`), so the
previous metrics are explicit arguments here.  `o0` is the cursor for the
bit-0 read, `o1` the cursor for the bit-2 read, `o2` for the bit-6 read. -/

/-- Training-page cursor after its bit-0 field (no other field before it
is ever skipped in this variant). -/
def trainingCursor1 (flags : Nat) : Nat :=
  if flags &&& 0x0001 ≠ 0 then 2 + 2 else 2

/-- Training-page cursor after its bit-2 field: the offset at which this
variant reads the bit-6 power field. -/
def trainingCursor2 (flags : Nat) : Nat :=
  if flags &&& 0x0004 ≠ 0 then trainingCursor1 flags + 2 else trainingCursor1 flags

def trainingHandleBikeDataA (prevSpeed prevCadence prevPower : ℚ)
    (bytes : List Nat) : Option (ℚ × ℚ × ℚ) :=
  (getUint16LE bytes 0).bind fun flags =>
  (if flags &&& 0x0001 ≠ 0 then
      (getUint16LE bytes 2).map (fun (raw : Nat) => (raw : ℚ) * 0.01)
    else pure prevSpeed).bind fun speed =>
  (if flags &&& 0x0004 ≠ 0 then
      (getUint16LE bytes (trainingCursor1 flags)).map
        (fun (raw : Nat) => (raw : ℚ) * 0.5)
    else pure prevCadence).bind fun cadence =>
  (if flags &&& 0x0040 ≠ 0 then
      (getInt16LE bytes (trainingCursor2 flags)).map (fun (raw : Int) => (raw : ℚ))
    else pure prevPower).bind fun power =>
  pure (speed, cadence, power)

/-- C1: the Dialect A frame with flags `0x0045` (bits 0, 2, 6) and
little-endian payloads 2500, 160, 150. -/
def frameC1 : List Nat := [0x45, 0x00, 0xC4, 0x09, 0xA0, 0x00, 0x96, 0x00]

/-- C1: decoding the Dialect A frame with flags 0x0045 (bits 0, 2, 6 set)
and 16-bit little-endian payloads 2500, 160, 150 yields the record
`{speed: 25.0, cadence: 80.0, power: 150}`; the keys `averageSpeed`,
`averageCadence`, `totalDistance` and `resistanceLevel` are absent from
the record (the decoder's output object never contains them). -/
theorem c1_dialectA_frame_decode :
    handleBikeDataA frameC1 =
      some [("speed", (25 : ℚ)), ("cadence", (80 : ℚ)), ("power", (150 : ℚ))] ∧
    (handleBikeDataA frameC1).map
        (fun r => (r.lookup "averageSpeed", r.lookup "averageCadence",
                   r.lookup "totalDistance", r.lookup "resistanceLevel")) =
      some (none, none, none, none) := by
  constructor
  · simp +decide [handleBikeDataA, frameC1, getUint16LE, getInt16LE, Option.bind,
      cursorA1, cursorA2, cursorA3, cursorA4, cursorA5, cursorA6]
    norm_num
  · simp +decide [handleBikeDataA, frameC1, getUint16LE, getInt16LE,
      Option.bind, List.lookup, cursorA1, cursorA2, cursorA3, cursorA4,
      cursorA5, cursorA6]

/-- C2 counterexample frame: flags `0x0042` (bit 1 average speed, bit 6
instantaneous power), average speed raw 16, power raw 150. -/
def frameC2 : List Nat := [0x42, 0x00, 0x10, 0x00, 0x96, 0x00]

/-- C2 (counterexample): the claim quantifies over "the decoder", citing both
the monitor page's `handleBikeData` and the training page's `handleBikeData`.
The training page decoder does *not* advance its cursor past fields it does
not handle: on the frame with flags 0x0042 (average speed present, power
present) it reads power from offset 2 — the average-speed bytes — yielding 16,
while the power field actually sits at offset 4 and holds 150. -/
theorem c2_training_decoder_misreads_power :
    trainingHandleBikeDataA 0 0 0 frameC2 = some (0, 0, 16) ∧
    specPowerOffsetA 0x42 = 4 ∧
    getInt16LE frameC2 4 = some 150 ∧
    (16 : ℚ) ≠ 150 := by
  refine ⟨?_, by decide, by decide, by norm_num⟩
  simp +decide [trainingHandleBikeDataA, frameC2, getUint16LE, getInt16LE,
    Option.bind]

/-- Extraction helper for the monitor decoder's bind chain: if the chained
decode succeeded, the "power" entry of the record is exactly the value the
third (power) step produced. -/
theorem chainA_extract (mx my mp : Option ℚ) (r : List (String × ℚ))
    (h : (mx.bind fun speed => my.bind fun cadence => mp.bind fun power =>
        pure [("speed", speed), ("cadence", cadence), ("power", power)]) =
          some r) :
    ∃ p : ℚ, mp = some p ∧ r.lookup "power" = some p := by
  cases mx with
  | none => simp at h
  | some s =>
    cases my with
    | none => simp at h
    | some c =>
      cases mp with
      | none => simp at h
      | some p =>
        simp only [Option.some_bind, Option.pure_def, Option.some_inj] at h
        exact ⟨p, rfl, by rw [← h]; simp [List.lookup]⟩

/-- The monitor page's running cursor at the bit-6 power read equals the
dead-reckoned sum of the widths of the flagged fields of bits 0-5. -/
theorem cursorA6_eq_specPowerOffsetA (flags : Nat) :
    cursorA6 flags = specPowerOffsetA flags := by
  unfold cursorA6 cursorA5 cursorA4 cursorA3 cursorA2 cursorA1 specPowerOffsetA
  split_ifs <;> omega

/-- C2 (amended): the monitor page's `handleBikeData` does advance its read
cursor by the exact byte width of every flagged field it skips (2 bytes for
each 16-bit field, 3 bytes for the 24-bit total distance), so whenever the
instantaneous-power bit (bit 6) is set and decoding succeeds, the power value
it reports is the signed 16-bit field located at the dead-reckoned offset
`specPowerOffsetA flags`, whatever combination of the earlier flagged fields
(bits 0-5) is present in the frame. -/
theorem c2_monitor_decoder_power_at_spec_offset
    (bytes : List Nat) (flags : Nat) (r : List (String × ℚ))
    (hflags : getUint16LE bytes 0 = some flags)
    (hdec : handleBikeDataA bytes = some r)
    (hbit6 : flags &&& 0x0040 ≠ 0) :
    ∃ raw : Int, getInt16LE bytes (specPowerOffsetA flags) = some raw ∧
      r.lookup "power" = some (raw : ℚ) := by
  unfold handleBikeDataA at hdec
  rw [hflags] at hdec
  simp only [Option.some_bind] at hdec
  obtain ⟨p, hp, hlook⟩ := chainA_extract _ _ _ r hdec
  rw [if_pos hbit6, Option.map_eq_some'] at hp
  obtain ⟨raw, hraw, hcoe⟩ := hp
  exact ⟨raw, by rw [← cursorA6_eq_specPowerOffsetA]; exact hraw,
    by rw [hlook, hcoe]⟩

/-- C2 witness: the amended theorem applied to the frame `frameC2`. -/
theorem c2_monitor_decoder_power_at_spec_offset_witness :
    ∃ raw : Int, getInt16LE frameC2 (specPowerOffsetA 0x42) = some raw ∧
      List.lookup "power" [("speed", (0 : ℚ)), ("cadence", 0), ("power", 150)] =
        some (raw : ℚ) :=
  c2_monitor_decoder_power_at_spec_offset frameC2 0x42
    [("speed", 0), ("cadence", 0), ("power", 150)]
    (by decide)
    (by simp +decide [handleBikeDataA, frameC2, getUint16LE, getInt16LE,
          Option.bind, cursorA2, cursorA1, cursorA6, cursorA5, cursorA4,
          cursorA3])
    (by decide)

/-! ## Dialect B command encoder: `CONTROL_COMMANDS` of `lib/bikeFeatures.ts`
(part_003), the fixed iConsole command packets. -/

/-- `CONTROL_COMMANDS.PING`. -/
def CONTROL_COMMANDS_PING : List Nat := [0xf0, 0xa0, 0x01, 0x01, 0x92]

/-- `CONTROL_COMMANDS.INIT_A0`. -/
def CONTROL_COMMANDS_INIT_A0 : List Nat := [0xf0, 0xa0, 0x02, 0x02, 0x94]

/-- `CONTROL_COMMANDS.STATUS`. -/
def CONTROL_COMMANDS_STATUS : List Nat := [0xf0, 0xa1, 0x01, 0x01, 0x93]

/-- `CONTROL_COMMANDS.INIT_A3`. -/
def CONTROL_COMMANDS_INIT_A3 : List Nat := [0xf0, 0xa3, 0x01, 0x01, 0x01, 0x96]

/-- `CONTROL_COMMANDS.START`. -/
def CONTROL_COMMANDS_START : List Nat := [0xf0, 0xa5, 0x01, 0x01, 0x02, 0x99]

/-- `CONTROL_COMMANDS.STOP`. -/
def CONTROL_COMMANDS_STOP : List Nat := [0xf0, 0xa5, 0x01, 0x01, 0x04, 0x9b]

/-- `CONTROL_COMMANDS.READ`. -/
def CONTROL_COMMANDS_READ : List Nat := [0xf0, 0xa2, 0x01, 0x01, 0x94]

/-- The Dialect B checksum rule: a packet is well-formed when its trailing
byte is the sum of all preceding bytes modulo 256. -/
def checksumOk (packet : List Nat) : Bool :=
  packet.getLast? == some (packet.dropLast.sum % 256)

/-- C3: the five fixed Dialect B command packets equal the reference byte
sequences exactly, and in each of them the trailing byte is the sum of all
preceding bytes modulo 256. -/
theorem c3_dialectB_fixed_commands :
    CONTROL_COMMANDS_PING = [0xF0, 0xA0, 0x01, 0x01, 0x92] ∧
    CONTROL_COMMANDS_INIT_A0 = [0xF0, 0xA0, 0x02, 0x02, 0x94] ∧
    CONTROL_COMMANDS_STATUS = [0xF0, 0xA1, 0x01, 0x01, 0x93] ∧
    CONTROL_COMMANDS_START = [0xF0, 0xA5, 0x01, 0x01, 0x02, 0x99] ∧
    CONTROL_COMMANDS_STOP = [0xF0, 0xA5, 0x01, 0x01, 0x04, 0x9B] ∧
    checksumOk CONTROL_COMMANDS_PING = true ∧
    checksumOk CONTROL_COMMANDS_INIT_A0 = true ∧
    checksumOk CONTROL_COMMANDS_STATUS = true ∧
    checksumOk CONTROL_COMMANDS_START = true ∧
    checksumOk CONTROL_COMMANDS_STOP = true := by
  decide

/-! ## Dialect B `SetResistance` encoder (spec-modelled)

The training page (`src/src/app/training/page.tsx`) calls
`CONTROL_COMMANDS.setResistanceLevel(newLevel)`, but the module defining that
member is not among the repository sources available here — the `part_003`
`CONTROL_COMMANDS` object holds only the fixed packets above. -/

/-- Modelled from the spec: the missing `CONTROL_COMMANDS.setResistanceLevel`
encoder.  Per spec §4.3, a Dialect B command is a leading sync byte `0xF0`,
a command-class byte, length byte(s), the payload, and a trailing checksum
byte equal to the sum of all preceding bytes modulo 256; `SetResistance(level)`
"must be derived by the same checksum rule with the resistance-set command
class and `level` as payload", computing the checksum arithmetically.  The
spec does not fix the numeric value of the resistance-set command-class byte;
`0xA6` is used here, and no theorem below depends on that choice. -/
def setResistanceLevel (level : Nat) : List Nat :=
  let body : List Nat := [0xF0, 0xA6, 0x01, 0x01, level]
  body ++ [body.sum % 256]

/-- C6: for every resistance level in 0..255, the Dialect B encoding of
`SetResistance(level)` carries a trailing checksum byte equal to the sum of
all other bytes of the packet modulo 256, and the level itself appears as
the payload byte (the checksum is computed arithmetically from the level,
not looked up from a table). -/
theorem c6_setResistance_checksum (level : Fin 256) :
    checksumOk (setResistanceLevel level) = true ∧
    (setResistanceLevel level).dropLast.getLast? = some level.val := by
  constructor
  · simp [checksumOk, setResistanceLevel]
  · simp [setResistanceLevel]

/-- C6 witness: the checksum property instantiated at level 5; the packet is
`[0xF0, 0xA6, 0x01, 0x01, 0x05, 0x9D]`. -/
theorem c6_setResistance_checksum_witness :
    checksumOk (setResistanceLevel 5) = true ∧
    (setResistanceLevel 5).dropLast.getLast? = some 5 :=
  c6_setResistance_checksum (5 : Fin 256)

/-! ## Dialect A `SetResistance` encoding of the control page

`app/control/page.tsx` (and the part_005 training page) encode a resistance
command as `new Uint8Array([0x04, newLevel])`.  JS `Uint8Array` element
conversion (`ToUint8`) reduces every (nonnegative integer) element modulo
2^8, so the level byte is `newLevel % 256`; no error is ever raised. -/

def controlPageResistanceData (newLevel : Nat) : List Nat :=
  [0x04, newLevel % 256]

/-- C7 (counterexample): encoding `SetResistance(256)` does not fail — the
control page's `debouncedAdjustLevel` builds `new Uint8Array([0x04, 256])`,
which is the packet `[0x04, 0x00]`: the level is silently wrapped modulo 256
into the payload byte, and no `EncodingError` exists anywhere in the code. -/
theorem c7_level256_wraps :
    controlPageResistanceData 256 = [0x04, 0x00] := by
  decide

/-- C7 (amended): for every level, the control page encodes
`SetResistance(level)` as the two-byte packet `[0x04, level mod 256]` —
out-of-byte-range levels are silently wrapped modulo 256 by the `Uint8Array`
conversion rather than rejected; in particular the encoding is periodic in
the level with period 256. -/
theorem c7_wraps_mod_256 (level : Nat) :
    controlPageResistanceData level = [0x04, level % 256] ∧
    controlPageResistanceData (level + 256) = controlPageResistanceData level := by
  refine ⟨rfl, ?_⟩
  simp [controlPageResistanceData, Nat.add_mod_right]

/-- C7 witness: the amended statement instantiated at level 300. -/
theorem c7_wraps_mod_256_witness :
    controlPageResistanceData 300 = [0x04, 300 % 256] ∧
    controlPageResistanceData (300 + 256) = controlPageResistanceData 300 :=
  c7_wraps_mod_256 300

/-! ## Dialect B decoder: `parseIndoorBikeData` of `lib/bikeFeatures.ts`
(part_003)

The iConsole parser reads the 16-bit flags word, and for frames of
`byteLength >= 19` decodes elapsed time, speed, rpm, distance, calories,
heart rate, power and resistance level, subtracting 1 from every raw byte
before combining (`dataView.getUint8(offset) - 1`; JS numbers, so a raw
byte 0 yields -1).  Shorter frames leave the result object empty.  The
surrounding `try`/`catch` turns any out-of-bounds read into the empty
result as well.  The JS result object's optional numeric properties are the
`Option ℚ` fields below. -/

structure RecB where
  time : Option ℚ
  speed : Option ℚ
  rpm : Option ℚ
  distance : Option ℚ
  calories : Option ℚ
  heartRate : Option ℚ
  power : Option ℚ
  level : Option ℚ
deriving DecidableEq, Repr

/-- The empty result object `{}`. -/
def emptyRecB : RecB :=
  ⟨none, none, none, none, none, none, none, none⟩

/-- The iConsole "minus one" correction applied to every raw byte before the
combination arithmetic (JS `getUint8(...) - 1`, which can be -1). -/
def minusOne (b : Nat) : ℤ := (b : ℤ) - 1

/-- The `try` body of `parseIndoorBikeData`; `none` is a thrown read.
Under the `byteLength >= 19` guard every `getUint8` the source performs is
in bounds (the highest offset read is 18), so those reads are embedded with
the total accessor `List.getD` (which agrees with `getUint8` on every
in-bounds index); the only read that can throw is the flags word. -/
def parseIndoorBikeDataBAux (bytes : List Nat) : Option RecB :=
  (getUint16LE bytes 0).bind fun _flags =>
  if bytes.length ≥ 19 then
    let day := bytes.getD 2 0
    let hour := bytes.getD 3 0
    let minute := bytes.getD 4 0
    let second := bytes.getD 5 0
    let speed1 := bytes.getD 6 0
    let speed2 := bytes.getD 7 0
    let rpm1 := bytes.getD 8 0
    let rpm2 := bytes.getD 9 0
    let dist1 := bytes.getD 10 0
    let dist2 := bytes.getD 11 0
    let cal1 := bytes.getD 12 0
    let cal2 := bytes.getD 13 0
    let hr1 := bytes.getD 14 0
    let hr2 := bytes.getD 15 0
    let power1 := bytes.getD 16 0
    let power2 := bytes.getD 17 0
    let lvl := bytes.getD 18 0
    pure {
      time := some ((((minusOne day * 24 + minusOne hour) * 60 +
        minusOne minute) * 60 + minusOne second : ℤ) : ℚ)
      speed := some (((minusOne speed1 * 100 + minusOne speed2 : ℤ) : ℚ) / 10)
      rpm := some (((minusOne rpm1 * 100 + minusOne rpm2 : ℤ) : ℚ))
      distance := some (((minusOne dist1 * 100 + minusOne dist2 : ℤ) : ℚ) / 10)
      calories := some (((minusOne cal1 * 100 + minusOne cal2 : ℤ) : ℚ))
      heartRate := some (((minusOne hr1 * 100 + minusOne hr2 : ℤ) : ℚ))
      power := some (((minusOne power1 * 100 + minusOne power2 : ℤ) : ℚ) / 10)
      level := some ((minusOne lvl : ℚ)) }
  else
    pure emptyRecB

/-- `parseIndoorBikeData`, `catch` included: a thrown read returns `{}`. -/
def parseIndoorBikeDataB (bytes : List Nat) : RecB :=
  (parseIndoorBikeDataBAux bytes).getD emptyRecB

/-- C4's frame: standard fixed length 19, flags bytes 0, day/hour/minute/
second bytes 2,2,2,2, every remaining field byte 1. -/
def frameC4 : List Nat := [0, 0, 2, 2, 2, 2, 1, 1, 1, 1, 1, 1, 1, 1, 1, 1, 1, 1, 1]

/-- C4 (counterexample): on the standard-length Dialect B frame whose
day/hour/minute/second bytes are 2,2,2,2 (and all other field bytes 1), the
decoded elapsed time is ((1×24+1)×60+1)×60+1 = 90061 seconds, not 0: after
the minus-one correction the time components are 1,1,1,1, so the bytes
2,2,2,2 do not represent zero elapsed time as the claim asserts. -/
theorem c4_frame2222_time_not_zero :
    (parseIndoorBikeDataB frameC4).time = some 90061 ∧
    (parseIndoorBikeDataB frameC4).time ≠ some 0 := by
  constructor <;>
    simp +decide [parseIndoorBikeDataB, parseIndoorBikeDataBAux, frameC4,
      getUint16LE, minusOne, Option.bind]

/-- The frame the counterexample forces: day/hour/minute/second bytes
1,1,1,1 (zero after the minus-one correction), other field bytes all 1. -/
def frameC4amended : List Nat :=
  [0, 0, 1, 1, 1, 1, 1, 1, 1, 1, 1, 1, 1, 1, 1, 1, 1, 1, 1]

/-- C4 (amended): decoding a Dialect B frame of the standard fixed length 19
whose day/hour/minute/second bytes are 1,1,1,1 and whose remaining field
bytes are all 1 yields elapsed time 0 and every other numeric field (speed,
cadence, distance, calories, heart rate, power, resistance level) equal to 0,
each raw byte having 1 subtracted before the combination arithmetic
((day×24+hour)×60+minute)×60+second and b0×100+b1. -/
theorem c4_amended_frame1111_all_zero :
    parseIndoorBikeDataB frameC4amended =
      { time := some 0, speed := some 0, rpm := some 0, distance := some 0,
        calories := some 0, heartRate := some 0, power := some 0,
        level := some 0 } := by
  simp +decide [parseIndoorBikeDataB, parseIndoorBikeDataBAux, frameC4amended,
    getUint16LE, minusOne, Option.bind, RecB.mk.injEq]

/-! ## Debug-page decoder: `parseIndoorBikeData` of `app/debug/page.tsx`
(part_000)

This parser only extracts the flags word, an optional counter byte for the
two observed fixed frame lengths (41 and 30), and a raw-byte dump for
diagnostics; on a thrown read (frame shorter than the 2-byte flags word) the
`catch` returns `null`.  The JS `flags` property is a binary-string rendering
of `rawFlags` and the `rawBytes` property a hex-string rendering of the
buffer; both renderings are presentation only, so the record keeps the
number and the byte list. -/

structure DebugRec where
  rawFlags : Nat
  counter : Option Nat
  rawBytes : List Nat
deriving DecidableEq, Repr

def parseIndoorBikeDataDebug (bytes : List Nat) : Option DebugRec :=
  (getUint16LE bytes 0).bind fun flags =>
  pure {
    rawFlags := flags
    counter :=
      if bytes.length ≥ 4 then
        if bytes.length = 41 then bytes[37]?
        else if bytes.length = 30 then bytes[26]?
        else none
      else none
    rawBytes := bytes }

/-- C5 (counterexample): on the 4-byte buffer `[0, 0, 5, 5]` — too short for
any fixed Dialect B field — the Dialect B parser returns the *empty* record:
no field of the result is present, and the result type of that parser has no
raw-byte-dump field at all.  This contradicts the claim that a truncated
frame yields the fields decoded before the truncation point plus a
diagnostic raw-byte hex dump field, "rather than ... an empty result". -/
theorem c5_short_frame_empty_record :
    parseIndoorBikeDataB [0, 0, 5, 5] = emptyRecB ∧
    emptyRecB.time = none ∧ emptyRecB.speed = none ∧ emptyRecB.rpm = none ∧
    emptyRecB.distance = none ∧ emptyRecB.calories = none ∧
    emptyRecB.heartRate = none ∧ emptyRecB.power = none ∧
    emptyRecB.level = none := by
  decide

/-- C5 (amended): decoding never throws to the caller, but malformed input
does not produce a partial record with a hex dump in both parsers: the
Dialect B parser returns the *empty* record for every frame shorter than the
19-byte fixed layout (including frames too short for the flags word), and the
debug-page parser returns null when the flags word cannot be read, attaching
the raw-byte dump only to records it does return (frames of length ≥ 2). -/
theorem c5_decode_never_throws (bytes : List Nat) :
    (bytes.length < 19 → parseIndoorBikeDataB bytes = emptyRecB) ∧
    (bytes.length < 2 → parseIndoorBikeDataDebug bytes = none) ∧
    (2 ≤ bytes.length →
      ∃ r, parseIndoorBikeDataDebug bytes = some r ∧ r.rawBytes = bytes) := by
  refine ⟨?_, ?_, ?_⟩
  · intro hlen
    unfold parseIndoorBikeDataB parseIndoorBikeDataBAux
    cases h : getUint16LE bytes 0 with
    | none => rfl
    | some flags => simp [Option.getD, if_neg (by omega : ¬ bytes.length ≥ 19)]
  · intro hlen
    have h1 : bytes[1]? = none := List.getElem?_eq_none_iff.mpr (by omega)
    have hu : getUint16LE bytes 0 = none := by
      unfold getUint16LE
      cases h0 : bytes[0]? <;> simp [Option.bind, h0, h1]
    unfold parseIndoorBikeDataDebug
    rw [hu]
    rfl
  · intro hlen
    obtain ⟨b0, h0⟩ : ∃ b0, bytes[0]? = some b0 :=
      ⟨_, List.getElem?_eq_getElem (by omega)⟩
    obtain ⟨b1, h1⟩ : ∃ b1, bytes[1]? = some b1 :=
      ⟨_, List.getElem?_eq_getElem (by omega)⟩
    have hu : getUint16LE bytes 0 = some (b0 + 256 * b1) := by
      unfold getUint16LE
      simp [Option.bind, h0, h1]
    refine ⟨{ rawFlags := b0 + 256 * b1,
              counter :=
                if bytes.length ≥ 4 then
                  if bytes.length = 41 then bytes[37]?
                  else if bytes.length = 30 then bytes[26]?
                  else none
                else none,
              rawBytes := bytes }, ?_, rfl⟩
    unfold parseIndoorBikeDataDebug
    rw [hu]
    rfl

/-- C5 witness: the amended theorem instantiated at the concrete buffers
`[1, 2, 3]` (shorter than the fixed layout but long enough for flags) and
`[7]` (too short even for the flags word). -/
theorem c5_decode_never_throws_witness :
    parseIndoorBikeDataB [1, 2, 3] = emptyRecB ∧
    parseIndoorBikeDataDebug [7] = none ∧
    (∃ r, parseIndoorBikeDataDebug [1, 2, 3] = some r ∧ r.rawBytes = [1, 2, 3]) :=
  ⟨(c5_decode_never_throws [1, 2, 3]).1 (by decide),
   (c5_decode_never_throws [7]).2.1 (by decide),
   (c5_decode_never_throws [1, 2, 3]).2.2 (by decide)⟩

/-! ## Heart-rate decoder: `parseHeartRate` of `app/debug/page.tsx`
(part_000)

Reads the flags byte, selects 16-bit little-endian or 8-bit format from
flag bit 0 (`(flags & 0x1) === 1`), and returns `null` (the `catch`) when a
read is out of bounds. -/

def parseHeartRate (bytes : List Nat) : Option Nat :=
  (bytes[0]?).bind fun flags =>
  if flags &&& 0x1 = 1 then getUint16LE bytes 1 else bytes[1]?

/-- C10: `parseHeartRate` selects the value format from bit 0 of the first
byte — the unsigned 16-bit little-endian value at offset 1 when the bit is
set, the unsigned 8-bit value at offset 1 otherwise — and returns null
rather than throwing whenever the buffer is too short for the selected
format (or even for the flags byte itself). -/
theorem c10_parseHeartRate_format (bytes : List Nat) :
    (bytes[0]? = none → parseHeartRate bytes = none) ∧
    (∀ b, bytes[0]? = some b →
      (b.testBit 0 = true →
        parseHeartRate bytes = getUint16LE bytes 1 ∧
        (bytes.length < 3 → parseHeartRate bytes = none)) ∧
      (b.testBit 0 = false →
        parseHeartRate bytes = bytes[1]? ∧
        (bytes.length < 2 → parseHeartRate bytes = none))) := by
  refine ⟨?_, ?_⟩
  · intro h
    unfold parseHeartRate
    rw [h]
    rfl
  · intro b hb
    constructor
    · intro htb
      have hm : b % 2 = 1 := by
        rw [Nat.testBit_zero, decide_eq_true_eq] at htb
        exact htb
      have heq : parseHeartRate bytes = getUint16LE bytes 1 := by
        unfold parseHeartRate
        rw [hb]
        simp [Option.bind, hm]
      refine ⟨heq, ?_⟩
      intro hlen
      rw [heq]
      unfold getUint16LE
      have h2 : bytes[2]? = none := List.getElem?_eq_none_iff.mpr (by omega)
      cases h1 : bytes[1]? <;> simp [Option.bind, h1, h2]
    · intro htb
      have hm : b % 2 = 0 := by
        rw [Nat.testBit_zero] at htb
        have : ¬ b % 2 = 1 := by
          intro h
          rw [h] at htb
          simp at htb
        omega
      have heq : parseHeartRate bytes = bytes[1]? := by
        unfold parseHeartRate
        rw [hb]
        simp [Option.bind, hm]
      refine ⟨heq, ?_⟩
      intro hlen
      rw [heq, List.getElem?_eq_none_iff]
      omega

/-- C10 witness: a 16-bit-format buffer `[1, 60, 0]` (bit 0 of the flags set)
decodes via the 16-bit little-endian read at offset 1, yielding 60 bpm. -/
theorem c10_parseHeartRate_format_witness :
    parseHeartRate [1, 60, 0] = getUint16LE [1, 60, 0] 1 ∧
    parseHeartRate [1, 60, 0] = some 60 := by
  have h := ((c10_parseHeartRate_format [1, 60, 0]).2 1 rfl).1 (by decide)
  exact ⟨h.1, by rw [h.1]; decide⟩

/-! ## Capability negotiation

The transport session (a `BluetoothRemoteGATTServer`) is modelled as a list
of services, each a list of characteristics; `getPrimaryService` and
`service.getCharacteristic` throw `NotFoundError` when absent, embedded as
`none`.  A characteristic's `readValue()` result is its `value` field, with
`none` standing for a failed/unsupported read. -/

structure FakeCharacteristic where
  uuid : String
  value : Option (List Nat)
deriving DecidableEq, Repr

structure FakeService where
  uuid : String
  characteristics : List FakeCharacteristic
deriving DecidableEq, Repr

structure FakeServer where
  services : List FakeService
deriving DecidableEq, Repr

def getPrimaryService (server : FakeServer) (id : String) : Option FakeService :=
  server.services.find? (fun s => s.uuid == id)

def getCharacteristic (s : FakeService) (id : String) : Option FakeCharacteristic :=
  s.characteristics.find? (fun c => c.uuid == id)

/-! UUID constants of `src/src/lib/bikeFeatures.ts` (the `BIKE_SERVICES` /
`BIKE_CHARACTERISTICS` tables) and of the part_003 variant. -/

def uuidFitnessMachine : String := "00001826-0000-1000-8000-00805f9b34fb"

def uuidCyclingPower : String := "00001818-0000-1000-8000-00805f9b34fb"

def uuidCyclingSpeedCadence : String := "00001816-0000-1000-8000-00805f9b34fb"

def uuidHeartRate : String := "0000180d-0000-1000-8000-00805f9b34fb"

def uuidMachineFeature : String := "00002acc-0000-1000-8000-00805f9b34fb"

def uuidIndoorBikeData : String := "00002ad2-0000-1000-8000-00805f9b34fb"

def uuidResistanceRange : String := "00002ad6-0000-1000-8000-00805f9b34fb"

/-- `CONTROL_POINT` of the lib table (value 2ad8). -/
def uuidControlPointLib : String := "00002ad8-0000-1000-8000-00805f9b34fb"

/-- `CONTROL_POINT` of the part_003 table (value 2ad9). -/
def uuidControlPoint3 : String := "00002ad9-0000-1000-8000-00805f9b34fb"

def uuidPowerMeasurement : String := "00002a63-0000-1000-8000-00805f9b34fb"

def uuidCscMeasurement : String := "00002a5b-0000-1000-8000-00805f9b34fb"

def uuidHeartRateMeasurement : String := "00002a37-0000-1000-8000-00805f9b34fb"

/-- `parseMachineFeatures` of `lib/bikeFeatures.ts`: the feature names named
by the set bits of the 32-bit Fitness Machine Feature bitmap. -/
def machineFeatureNames (flags : Nat) : List String :=
  (if flags &&& 0x00000001 ≠ 0 then ["Average Speed"] else []) ++
  (if flags &&& 0x00000002 ≠ 0 then ["Cadence"] else []) ++
  (if flags &&& 0x00000004 ≠ 0 then ["Total Distance"] else []) ++
  (if flags &&& 0x00000008 ≠ 0 then ["Inclination"] else []) ++
  (if flags &&& 0x00000010 ≠ 0 then ["Elevation Gain"] else []) ++
  (if flags &&& 0x00000020 ≠ 0 then ["Pace"] else []) ++
  (if flags &&& 0x00000040 ≠ 0 then ["Step Count"] else []) ++
  (if flags &&& 0x00000080 ≠ 0 then ["Resistance Level"] else []) ++
  (if flags &&& 0x00000100 ≠ 0 then ["Stride Count"] else []) ++
  (if flags &&& 0x00000200 ≠ 0 then ["Expended Energy"] else []) ++
  (if flags &&& 0x00000400 ≠ 0 then ["Heart Rate"] else []) ++
  (if flags &&& 0x00000800 ≠ 0 then ["Metabolic Equivalent"] else []) ++
  (if flags &&& 0x00001000 ≠ 0 then ["Elapsed Time"] else []) ++
  (if flags &&& 0x00002000 ≠ 0 then ["Remaining Time"] else []) ++
  (if flags &&& 0x00004000 ≠ 0 then ["Power Measurement"] else [])

/-- `parseMachineFeatures` applied to a read buffer (`getUint32` can throw
on a short buffer; the caller catches that). -/
def parseMachineFeatures (v : List Nat) : Option (List String) :=
  (getUint32LE v 0).map machineFeatureNames

/-- `parseResistanceRange`: two signed 16-bit values, min then max. -/
def parseResistanceRange (v : List Nat) : Option (ℤ × ℤ) :=
  (getInt16LE v 0).bind fun mn =>
  (getInt16LE v 2).map fun mx => (mn, mx)

structure BikeFeaturesLib where
  hasSpeedMeasurement : Bool
  hasCadenceMeasurement : Bool
  hasPowerMeasurement : Bool
  hasResistanceControl : Bool
  minResistance : ℤ
  maxResistance : ℤ
  supportedFeatures : List String
deriving DecidableEq, Repr

structure BikeCharacteristicsLib where
  controlPoint : Option FakeCharacteristic
  indoorBikeData : Option FakeCharacteristic
  powerMeasurement : Option FakeCharacteristic
  cscMeasurement : Option FakeCharacteristic
deriving DecidableEq, Repr

/-- The initial (conservative-default) feature record of
`setupBikeFeatures` in `lib/bikeFeatures.ts`. -/
def defaultFeaturesLib : BikeFeaturesLib :=
  ⟨false, false, false, false, 1, 20, []⟩

def noCharsLib : BikeCharacteristicsLib := ⟨none, none, none, none⟩

/-- `setupBikeFeatures` of `src/src/lib/bikeFeatures.ts`.  Every optional
probe sits in its own `try`/`catch` (a failed step leaves the records
unchanged); only failure of the mandatory Fitness Machine primary service
reaches the outer `catch`, which rethrows (`throw new Error('Failed to
setup bike features: ...')`), embedded as `Except.error`. -/
def setupBikeFeaturesLib (server : FakeServer) :
    Except String (BikeFeaturesLib × BikeCharacteristicsLib) :=
  match getPrimaryService server uuidFitnessMachine with
  | none => .error "Failed to setup bike features"
  | some fitnessService =>
    -- machine-feature probe: characteristic, readValue, parse, then flags
    let features1 :=
      match (getCharacteristic fitnessService uuidMachineFeature).bind
          (fun c => c.value.bind parseMachineFeatures) with
      | some feats =>
        { defaultFeaturesLib with
            supportedFeatures := feats
            hasCadenceMeasurement := feats.contains "Cadence"
            hasPowerMeasurement := feats.contains "Power Measurement"
            hasResistanceControl := feats.contains "Resistance Level" }
      | none => defaultFeaturesLib
    -- resistance-range probe
    let features2 :=
      match (getCharacteristic fitnessService uuidResistanceRange).bind
          (fun c => c.value.bind parseResistanceRange) with
      | some (mn, mx) =>
        { features1 with minResistance := mn, maxResistance := mx }
      | none => features1
    -- control point probe (characteristic reference only)
    let cp := getCharacteristic fitnessService uuidControlPointLib
    -- indoor bike data probe: reference plus the speed flag
    let ibd := getCharacteristic fitnessService uuidIndoorBikeData
    let features3 :=
      match ibd with
      | some _ => { features2 with hasSpeedMeasurement := true }
      | none => features2
    -- cycling power service probe
    let pm := (getPrimaryService server uuidCyclingPower).bind
      (fun ps => getCharacteristic ps uuidPowerMeasurement)
    let features4 :=
      match pm with
      | some _ => { features3 with hasPowerMeasurement := true }
      | none => features3
    -- cycling speed and cadence service probe
    let csc := (getPrimaryService server uuidCyclingSpeedCadence).bind
      (fun cs => getCharacteristic cs uuidCscMeasurement)
    let features5 :=
      match csc with
      | some _ =>
        { features4 with hasSpeedMeasurement := true, hasCadenceMeasurement := true }
      | none => features4
    .ok (features5, { controlPoint := cp, indoorBikeData := ibd,
                      powerMeasurement := pm, cscMeasurement := csc })

/-! part_003's `setupBikeFeatures` (the iConsole-oriented
`lib/bikeFeatures.ts` variant): its outer `catch` only logs and then falls
through to `return { features, characteristics }`, so even total failure of
the mandatory service returns the untouched defaults. -/

structure BikeFeatures3 where
  hasSpeedMeasurement : Bool
  hasCadenceMeasurement : Bool
  hasPowerMeasurement : Bool
  hasResistanceControl : Bool
  minResistance : ℤ
  maxResistance : ℤ
  minPower : ℤ
  maxPower : ℤ
deriving DecidableEq, Repr

structure BikeCharacteristics3 where
  controlPoint : Option FakeCharacteristic
  indoorBikeData : Option FakeCharacteristic
  powerMeasurement : Option FakeCharacteristic
  heartRateMeasurement : Option FakeCharacteristic
deriving DecidableEq, Repr

def defaultFeatures3 : BikeFeatures3 :=
  ⟨false, false, false, false, 1, 20, 0, 1000⟩

def noChars3 : BikeCharacteristics3 := ⟨none, none, none, none⟩

def setupBikeFeatures3 (server : FakeServer) :
    BikeFeatures3 × BikeCharacteristics3 :=
  match getPrimaryService server uuidFitnessMachine with
  | none => (defaultFeatures3, noChars3)
  | some fitnessService =>
    let cp := getCharacteristic fitnessService uuidControlPoint3
    let features1 :=
      match cp with
      | some _ => { defaultFeatures3 with hasResistanceControl := true }
      | none => defaultFeatures3
    let ibd := getCharacteristic fitnessService uuidIndoorBikeData
    let features2 :=
      match ibd with
      | some _ =>
        { features1 with hasSpeedMeasurement := true, hasCadenceMeasurement := true }
      | none => features1
    -- power probe: part_003's characteristic table has no POWER_MEASUREMENT
    -- entry, so `getCharacteristic(BIKE_CHARACTERISTICS.POWER_MEASUREMENT)`
    -- receives `undefined`, always throws, and is always caught: the probe
    -- never succeeds, whatever the server exposes.
    let pm : Option FakeCharacteristic := none
    let hr := (getPrimaryService server uuidHeartRate).bind
      (fun s => getCharacteristic s uuidHeartRateMeasurement)
    (features2, { controlPoint := cp, indoorBikeData := ibd,
                  powerMeasurement := pm, heartRateMeasurement := hr })

/-- C8 (counterexample): the claim covers both `setupBikeFeatures`
implementations and asserts negotiation fails (a SetupError surfaces) when
the mandatory Fitness Machine primary service cannot be obtained.  The
part_003 variant refutes that: against a server exposing no services at all
— where the mandatory primary-service probe throws NotFound — it returns
the untouched default feature record normally (its outer catch logs and
falls through to the return) instead of surfacing any error; its result
type is not even fallible. -/
theorem c8_part003_swallows_total_failure :
    getPrimaryService ⟨[]⟩ uuidFitnessMachine = none ∧
    setupBikeFeatures3 ⟨[]⟩ = (defaultFeatures3, noChars3) := by
  constructor <;> rfl

/-- C8 (amended): in `src/src/lib/bikeFeatures.ts`, capability negotiation
fails (the outer catch rethrows a SetupError) exactly when the mandatory
Fitness Machine primary service cannot be obtained: every optional probe is
caught inside the negotiator, so a server with the mandatory service always
yields a normal result.  (The part_003 variant never fails at all: see the
counterexample.) -/
theorem c8_lib_fails_iff_no_mandatory_service (server : FakeServer) :
    (∃ v, setupBikeFeaturesLib server = .ok v) ↔
      (∃ fs, getPrimaryService server uuidFitnessMachine = some fs) := by
  cases h : getPrimaryService server uuidFitnessMachine with
  | none =>
    unfold setupBikeFeaturesLib
    rw [h]
    simp
  | some fs =>
    unfold setupBikeFeaturesLib
    rw [h]
    simp

/-- C8 witness: the amended equivalence instantiated at the empty server. -/
theorem c8_lib_fails_iff_no_mandatory_service_witness :
    (∃ v, setupBikeFeaturesLib ⟨[]⟩ = .ok v) ↔
      (∃ fs, getPrimaryService ⟨[]⟩ uuidFitnessMachine = some fs) :=
  c8_lib_fails_iff_no_mandatory_service ⟨[]⟩

/-- C9: when the server exposes the mandatory Fitness Machine primary
service but every optional probe fails with NotFound (no machine-feature,
resistance-range, control-point or indoor-bike-data characteristic on it,
and no cycling-power or CSC service), negotiation returns — without an
error — the descriptor with hasSpeedMeasurement, hasCadenceMeasurement,
hasPowerMeasurement and hasResistanceControl all false and the conservative
default resistance range minResistance = 1, maxResistance = 20. -/
theorem c9_only_mandatory_service_defaults (server : FakeServer)
    (fs : FakeService)
    (h1 : getPrimaryService server uuidFitnessMachine = some fs)
    (h2 : getCharacteristic fs uuidMachineFeature = none)
    (h3 : getCharacteristic fs uuidResistanceRange = none)
    (h4 : getCharacteristic fs uuidControlPointLib = none)
    (h5 : getCharacteristic fs uuidIndoorBikeData = none)
    (h6 : getPrimaryService server uuidCyclingPower = none)
    (h7 : getPrimaryService server uuidCyclingSpeedCadence = none) :
    setupBikeFeaturesLib server = .ok (defaultFeaturesLib, noCharsLib) := by
  unfold setupBikeFeaturesLib
  rw [h1]
  simp [h2, h3, h4, h5, h6, h7, noCharsLib]

/-- C9 witness: a server exposing one Fitness Machine service with no
characteristics at all. -/
theorem c9_only_mandatory_service_defaults_witness :
    setupBikeFeaturesLib ⟨[⟨uuidFitnessMachine, []⟩]⟩ =
      .ok (defaultFeaturesLib, noCharsLib) :=
  c9_only_mandatory_service_defaults ⟨[⟨uuidFitnessMachine, []⟩]⟩
    ⟨uuidFitnessMachine, []⟩ (by decide) rfl rfl rfl rfl (by decide) (by decide)

end BikeCompanion
